/-
Verification of the workflow-orchestration core of the AI-Agent-System
repository: the template manager of the Director MCP server
(director-mcp-server/src/templates/template-manager.ts), context manager
(director-mcp-server/src/context/context-manager.ts) and the agent
communicator (agent-communicator.ts).  The TypeScript sources are embedded
shallowly: objects become structures or association lists, JSON values an
inductive type, the retry loop a pure function over an abstract transport
oracle, and wall-clock reads are threaded explicitly.
-/
import Mathlib

namespace AgentSystem

/-! ### String helpers

JavaScript `String.prototype.includes` and `String.prototype.trim`,
modelled on lists of characters. -/

/-- True when `listStartsWith l p`: `p` is a prefix of `l`. -/
def listStartsWith : List Char → List Char → Bool
  | _, [] => true
  | [], _ :: _ => false
  | a :: as, b :: bs => a == b && listStartsWith as bs

/-- True when `sub` occurs contiguously in `l`;
this is JS `l.includes(sub)`. -/
def listContainsSub : List Char → List Char → Bool
  | [], sub => sub.isEmpty
  | c :: rest, sub => listStartsWith (c :: rest) sub || listContainsSub rest sub

/-- JS `s.includes(sub)`. -/
def includes (s sub : String) : Bool :=
  listContainsSub s.toList sub.toList

/-- Whitespace test used by JS `trim` (restricted to the ASCII whitespace
characters that can occur in the template identifiers at issue). -/
def isWsChar (c : Char) : Bool :=
  c == ' ' || c == '\t' || c == '\n' || c == '\r'

/-- JS `String.prototype.trim` on a character list. -/
def trimChars (cs : List Char) : List Char :=
  ((cs.dropWhile isWsChar).reverse.dropWhile isWsChar).reverse

/-! ### Association lists

TypeScript `Record<string, T>` objects and `Map<string, T>` values are
embedded as association lists with JS semantics: key assignment replaces
an existing binding in place, otherwise appends. -/

/-- Lookup, i.e. `m.get(k)` / `obj[k]`. -/
def getKey {α : Type} : List (String × α) → String → Option α
  | [], _ => none
  | (k', v) :: rest, k => if k' = k then some v else getKey rest k

/-- Key-membership, i.e. `m.has(k)` / `k in obj`. -/
def hasKey {α : Type} (l : List (String × α)) (k : String) : Bool :=
  (getKey l k).isSome

/-- Assignment `m.set(k, v)` / `obj[k] = v`: replaces the existing binding
for `k` or appends a new one. -/
def setKey {α : Type} : List (String × α) → String → α → List (String × α)
  | [], k, v => [(k, v)]
  | (k', v') :: rest, k, v =>
      if k' = k then (k, v) :: rest else (k', v') :: setKey rest k v

/-! ### JSON values

Untyped JavaScript/JSON data (`any` in the TypeScript sources).  Numbers
are modelled as integers (the sources only use integral numeric
parameters). -/

inductive JVal : Type where
  | null : JVal
  | bool : Bool → JVal
  | num : Int → JVal
  | str : String → JVal
  | arr : List JVal → JVal
  | obj : List (String × JVal) → JVal

/-- JS truthiness: `null`/`undefined`, `false`, `0` and `""` are falsy;
every object (including `{}` and `[]`) is truthy. -/
def jvalTruthy : JVal → Bool
  | .null => false
  | .bool b => b
  | .num n => n != 0
  | .str s => !s.isEmpty
  | .arr _ => true
  | .obj _ => true

/-- Property read `v[f]` for a non-numeric property name `f`: own keys of
an object; `none` models JS `undefined` (primitives, arrays and missing
keys). -/
def getField : JVal → String → Option JVal
  | .obj kvs, f => getKey kvs f
  | _, _ => none

/-- Optional chaining `v?.f` applied to a possibly-`undefined` value. -/
def optChainField (v : Option JVal) (f : String) : Option JVal :=
  match v with
  | none => none
  | some .null => none
  | some w => getField w f

/-- JS `a || d` where `a` is a possibly-`undefined` property read. -/
def jsOr (v : Option JVal) (d : JVal) : JVal :=
  match v with
  | some x => if jvalTruthy x then x else d
  | none => d

mutual
/-- JS `String(v)` coercion: strings unchanged, numbers in decimal,
arrays joined with commas (with `null` elements printed empty), plain
objects as `"[object Object]"`. -/
def jsToString : JVal → String
  | .null => "null"
  | .bool true => "true"
  | .bool false => "false"
  | .num n => toString n
  | .str s => s
  | .arr xs => jsArrToString xs
  | .obj _ => "[object Object]"

/-- JS `Array.prototype.join(",")` as used by JS array-to-string coercion. -/
def jsArrToString : List JVal → String
  | [] => ""
  | [x] => jsElemToString x
  | x :: y :: xs => jsElemToString x ++ "," ++ jsArrToString (y :: xs)

/-- One array element under `join`: `null` becomes the empty string. -/
def jsElemToString : JVal → String
  | .null => ""
  | v => jsToString v
end

/-- The test `typeof v === "object" && v !== null` in the sense relevant to the
`in` operator: values on which `f in v` evaluates without throwing. -/
def isObjJS : JVal → Bool
  | .obj _ => true
  | .arr _ => true
  | _ => false

/-- Membership `f in v` for object-like `v` (arrays have no such named keys). -/
def hasFieldB : JVal → String → Bool
  | .obj kvs, f => hasKey kvs f
  | _, _ => false

/-! ### Context manager data model

Embeds the interfaces of director-mcp-server/src/types/workflow.ts that
the context manager reads, and the `ContextManager` class of
director-mcp-server/src/context/context-manager.ts as pure functions over
an explicit context map.  Wall-clock reads (`new Date()`) are threaded
through a `Clock` value. -/

structure AgentStatus where
  success : Bool
  errors : List String
  next_phase : String

structure ContextUpdates where
  api_calls : Nat
  tools_used : List String
  performance_notes : String

structure ProcessedIdea where
  idea_id : String
  title : String
  target_database : String
  target_database_id : String

structure CompletedOperation where
  operation_id : String
  action : String
  target_database_id : String
  status : String

structure AgentResults where
  ideas_processed : Option (List ProcessedIdea)
  operations_completed : Option (List CompletedOperation)
  summary : List (String × JVal)

structure AgentToDirectorResponse where
  agent_id : String
  task_id : String
  phase : String
  timestamp : String
  execution_time_ms : Nat
  results : AgentResults
  status : AgentStatus
  context_updates : ContextUpdates
  /-- Stands for `JSON.stringify(agentResponse).length`, used only by the
  token-usage estimate. -/
  serialized_length : Nat

/-- The condensed results view built by `summarizeResults`. -/
structure ResultsSummary where
  base : List (String × JVal)
  ideas_count : Option Nat
  databases_targeted : Option (List String)
  operations_count : Option Nat
  successful_operations : Option Nat

structure PhaseResult where
  agent : String
  completed_at : String
  status : String
  execution_time_ms : Nat
  results_summary : ResultsSummary
  next_action : String
  error_details : Option String

structure ErrorEntry where
  timestamp : String
  error_type : String
  error_message : String
  ctx_agent_id : String
  ctx_task_id : String
  ctx_phase : String
  suggested_action : String
  agent_id : String
  phase : String

structure WorkflowState where
  databases_involved : List String
  total_operations : Nat
  error_count : Nat
  current_agents : List String
  pending_tasks : List String

structure PerformanceMetrics where
  total_execution_time_ms : Nat
  api_calls_total : Nat
  token_usage_estimate : Nat
  agent_response_times : List (String × Nat)
  bottlenecks : List String

structure SharedWorkflowContext where
  context_id : String
  workflow_id : String
  current_phase : String
  iteration : Nat
  started_at : String
  updated_at : String
  phase_results : List (String × PhaseResult)
  workflow_state : WorkflowState
  performance_metrics : PerformanceMetrics
  error_log : List ErrorEntry
  initial_parameters : Option (List (String × JVal))

/-- Explicit clock: `now_iso` is `new Date().toISOString()`, `now_ms` is
`new Date().getTime()`, and `parse_ms` is `new Date(s).getTime()`. -/
structure Clock where
  now_iso : String
  now_ms : Int
  parse_ms : String → Int

/-- Embeds `createWorkflowContext`; the generated `ctx_<uuid>` identifier is
passed in explicitly. -/
def createWorkflowContext (clock : Clock) (contextId workflowId : String)
    (parameters : Option (List (String × JVal))) : SharedWorkflowContext :=
  { context_id := contextId
    workflow_id := workflowId
    current_phase := "initialization"
    iteration := 1
    started_at := clock.now_iso
    updated_at := clock.now_iso
    phase_results := []
    workflow_state :=
      { databases_involved := []
        total_operations := 0
        error_count := 0
        current_agents := []
        pending_tasks := [] }
    performance_metrics :=
      { total_execution_time_ms := 0
        api_calls_total := 0
        token_usage_estimate := 0
        agent_response_times := []
        bottlenecks := [] }
    error_log := []
    initial_parameters := parameters }

/-- JS `[...new Set(xs)]`: deduplicate preserving first occurrences. -/
def dedup : List String → List String
  | [] => []
  | x :: xs => x :: (dedup xs).filter (fun y => y ≠ x)

/-- Embeds `summarizeResults` (context-manager.ts).  `results.summary` is a
required field of the response type, hence always copied. -/
def summarizeResults (results : AgentResults) : ResultsSummary :=
  let base := results.summary
  let withIdeas : Option Nat × Option (List String) :=
    match results.ideas_processed with
    | some ideas => (some ideas.length, some (dedup (ideas.map (·.target_database))))
    | none => (none, none)
  let withOps : Option Nat × Option Nat :=
    match results.operations_completed with
    | some ops =>
        (some ops.length, some ((ops.filter (fun op => op.status = "success")).length))
    | none => (none, none)
  { base := base
    ideas_count := withIdeas.1
    databases_targeted := withIdeas.2
    operations_count := withOps.1
    successful_operations := withOps.2 }

/-- Embeds `suggestErrorAction` (context-manager.ts lines 267-281). -/
def suggestErrorAction (error : String) : String :=
  if includes error "timeout" then
    "Increase timeout or optimize agent processing"
  else if includes error "database" then
    "Check database connectivity and permissions"
  else if includes error "validation" then
    "Review input parameters and schema validation"
  else if includes error "tool" then
    "Verify MCP tool availability and configuration"
  else
    "Review error details and agent logs for specific resolution"

/-- Embeds `updateWorkflowState` (context-manager.ts lines 182-212). -/
def updateWorkflowState (state : WorkflowState)
    (resp : AgentToDirectorResponse) : WorkflowState :=
  let agents :=
    if state.current_agents.contains resp.agent_id then state.current_agents
    else state.current_agents ++ [resp.agent_id]
  let ops1 :=
    match resp.results.operations_completed with
    | some ops => state.total_operations + ops.length
    | none => state.total_operations
  let ops2 :=
    match resp.results.ideas_processed with
    | some ideas => ops1 + ideas.length
    | none => ops1
  let dbs :=
    match resp.results.ideas_processed with
    | some ideas =>
        ideas.foldl
          (fun acc idea =>
            if idea.target_database_id ≠ "" ∧ ¬ acc.contains idea.target_database_id then
              acc ++ [idea.target_database_id]
            else acc)
          state.databases_involved
    | none => state.databases_involved
  { state with
    current_agents := agents
    total_operations := ops2
    databases_involved := dbs
    error_count := if resp.status.success then state.error_count else state.error_count + 1 }

/-- Embeds `updatePerformanceMetrics` (context-manager.ts lines 217-239).
`Math.ceil(n / 4)` on naturals is `(n + 3) / 4`. -/
def updatePerformanceMetrics (metrics : PerformanceMetrics)
    (resp : AgentToDirectorResponse) : PerformanceMetrics :=
  let apiCalls :=
    if resp.context_updates.api_calls ≠ 0 then
      metrics.api_calls_total + resp.context_updates.api_calls
    else metrics.api_calls_total
  { metrics with
    total_execution_time_ms := metrics.total_execution_time_ms + resp.execution_time_ms
    api_calls_total := apiCalls
    agent_response_times :=
      setKey metrics.agent_response_times resp.agent_id resp.execution_time_ms
    token_usage_estimate := metrics.token_usage_estimate + (resp.serialized_length + 3) / 4
    bottlenecks :=
      if resp.execution_time_ms > 60000 then
        metrics.bottlenecks ++
          [resp.agent_id ++ " slow response: " ++ toString resp.execution_time_ms ++ "ms"]
      else metrics.bottlenecks }

/-- Embeds `addErrorToContext` (context-manager.ts lines 244-262): one error-log
entry per reported error string. -/
def addErrorToContext (ctx : SharedWorkflowContext)
    (resp : AgentToDirectorResponse) : SharedWorkflowContext :=
  { ctx with
    error_log := ctx.error_log ++
      resp.status.errors.map (fun e =>
        { timestamp := resp.timestamp
          error_type := "agent_execution_error"
          error_message := e
          ctx_agent_id := resp.agent_id
          ctx_task_id := resp.task_id
          ctx_phase := resp.phase
          suggested_action := suggestErrorAction e
          agent_id := resp.agent_id
          phase := resp.phase }) }

/-- Embeds `determineNextPhase` (context-manager.ts lines 286-315).  The JS test
`if (agentResponse.status.next_phase)` is string truthiness: the hint is
followed exactly when it is non-empty. -/
def determineNextPhase (resp : AgentToDirectorResponse) : String :=
  if resp.status.next_phase ≠ "" then
    if resp.status.next_phase = "workflow_complete" then "complete"
    else resp.status.next_phase
  else
    fallbackNextPhase resp.phase
where
  /-- The default phase-progression heuristic on the completed phase. -/
  fallbackNextPhase (currentPhase : String) : String :=
    if includes currentPhase "categorization" then "execution_planning"
    else if includes currentPhase "planning" then "execution"
    else if includes currentPhase "execution" then "validation"
    else if includes currentPhase "validation" then "complete"
    else "unknown"

/-- The object built by `getContextSummary`. -/
structure ContextSummary where
  context_id : String
  workflow_id : String
  current_phase : String
  iteration : Nat
  duration_ms : Int
  phases_completed : Nat
  agents_involved : List String
  total_operations : Nat
  error_count : Nat
  total_time_ms : Nat
  api_calls : Nat
  token_usage : Nat

/-- Embeds `getContextSummary` (context-manager.ts lines 343-360). -/
def getContextSummary (clock : Clock) (ctx : SharedWorkflowContext) : ContextSummary :=
  { context_id := ctx.context_id
    workflow_id := ctx.workflow_id
    current_phase := ctx.current_phase
    iteration := ctx.iteration
    duration_ms := clock.now_ms - clock.parse_ms ctx.started_at
    phases_completed := ctx.phase_results.length
    agents_involved := ctx.workflow_state.current_agents
    total_operations := ctx.workflow_state.total_operations
    error_count := ctx.workflow_state.error_count
    total_time_ms := ctx.performance_metrics.total_execution_time_ms
    api_calls := ctx.performance_metrics.api_calls_total
    token_usage := ctx.performance_metrics.token_usage_estimate }

/-- The `data` object of a successful `updateContextWithAgentResponse`. -/
structure UpdateData where
  context_id : String
  current_phase : String
  next_phase : String
  workflow_complete : Bool
  summary : ContextSummary

/-- The `MCPToolResult` envelope of `updateContextWithAgentResponse`. -/
structure UpdateResult where
  success : Bool
  data : Option UpdateData
  error : Option String

/-- Embeds `updateContextWithAgentResponse` (context-manager.ts lines 93-177),
returning the result envelope together with the context map after the
call (the JS method mutates the stored context in place). -/
def updateContextWithAgentResponse (contexts : List (String × SharedWorkflowContext))
    (clock : Clock) (contextId : String) (resp : AgentToDirectorResponse) :
    UpdateResult × List (String × SharedWorkflowContext) :=
  match getKey contexts contextId with
  | none =>
      ({ success := false, data := none,
         error := some ("Context not found: " ++ contextId) }, contexts)
  | some ctx =>
      let phaseResult : PhaseResult :=
        { agent := resp.agent_id
          completed_at := resp.timestamp
          status := if resp.status.success then "success" else "failed"
          execution_time_ms := resp.execution_time_ms
          results_summary := summarizeResults resp.results
          next_action := resp.status.next_phase
          error_details :=
            if resp.status.errors.length > 0 then
              some (String.intercalate "; " resp.status.errors)
            else none }
      let ctx1 :=
        { ctx with
          phase_results := setKey ctx.phase_results resp.phase phaseResult
          current_phase := resp.phase
          updated_at := clock.now_iso }
      let ctx2 := { ctx1 with workflow_state := updateWorkflowState ctx1.workflow_state resp }
      let ctx3 :=
        { ctx2 with
          performance_metrics := updatePerformanceMetrics ctx2.performance_metrics resp }
      let ctx4 := if resp.status.success then ctx3 else addErrorToContext ctx3 resp
      let nextPhase := determineNextPhase resp
      ({ success := true
         data := some
           { context_id := contextId
             current_phase := ctx4.current_phase
             next_phase := nextPhase
             workflow_complete := nextPhase = "complete"
             summary := getContextSummary clock ctx4 }
         error := none },
       setKey contexts contextId ctx4)

/-! ### Specification-side definitions for the context manager -/

/-- The next-phase rule as the specification states it: a response that
names a next phase (the field is a required string in the TS types, so
"present" means non-empty) has it used, with the sentinel
`"workflow_complete"` mapped to `"complete"`; otherwise an ordered
substring match on the completed phase name, defaulting to `"unknown"`. -/
def determineNextPhaseSpec (completedPhase nextPhaseHint : String) : String :=
  if nextPhaseHint ≠ "" then
    if nextPhaseHint = "workflow_complete" then "complete" else nextPhaseHint
  else if includes completedPhase "categorization" then "execution_planning"
  else if includes completedPhase "planning" then "execution"
  else if includes completedPhase "execution" then "validation"
  else if includes completedPhase "validation" then "complete"
  else "unknown"

/-- The suggested-action rule of the specification, amended with the
`"tool"` branch the code contains between the `"validation"` and the
generic case. -/
def suggestedActionSpec (e : String) : String :=
  if includes e "timeout" then
    "Increase timeout or optimize agent processing"
  else if includes e "database" then
    "Check database connectivity and permissions"
  else if includes e "validation" then
    "Review input parameters and schema validation"
  else if includes e "tool" then
    "Verify MCP tool availability and configuration"
  else
    "Review error details and agent logs for specific resolution"

/-! ### Concrete sample inputs used by witnesses and counterexamples -/

def sampleClock : Clock :=
  { now_iso := "2025-01-01T00:00:00.000Z", now_ms := 0, parse_ms := fun _ => 0 }

def sampleResults : AgentResults :=
  { ideas_processed := none, operations_completed := none, summary := [] }

def sampleUpdates : ContextUpdates :=
  { api_calls := 0, tools_used := [], performance_notes := "" }

def mkResponse (phase next : String) (success : Bool)
    (errors : List String) : AgentToDirectorResponse :=
  { agent_id := "notion"
    task_id := "task_1"
    phase := phase
    timestamp := "2025-01-01T00:00:00.000Z"
    execution_time_ms := 5
    results := sampleResults
    status := { success := success, errors := errors, next_phase := next }
    context_updates := sampleUpdates
    serialized_length := 100 }

def sampleContext : SharedWorkflowContext :=
  createWorkflowContext sampleClock "c1" "idea_categorization" none

/-! ### Agent communicator (agent-communicator.ts)

HTTP transport is abstracted as an oracle mapping the 1-indexed attempt
number to either a parsed JSON response body (`.ok`) or an error message
(`.error`, an axios rejection).  The model additionally reports the number
of POST attempts performed and the backoff delays slept, which in the
source are observable effects. -/

/-- Digit run to a natural number. -/
def digitsToNat (cs : List Char) : Nat :=
  cs.foldl (fun a c => a * 10 + (c.toNat - '0'.toNat)) 0

/-- The numeric fields of a timestamp that matches the communicator's
ISO-8601 regex `^\d\x7b4\x7d-\d\x7b2\x7d-\d\x7b2\x7dT\d\x7b2\x7d:\d\x7b2\x7d:\d\x7b2\x7d(\.\d\x7b3\x7d)?Z?$`. -/
structure IsoFields where
  y : Nat
  mo : Nat
  d : Nat
  h : Nat
  mi : Nat
  s : Nat
  ms : Nat

/-- Parses the optional `(\.\d\x7b3\x7d)?Z?` tail of the regex, returning the
millisecond field. -/
def parseIsoTail : List Char → Option Nat
  | [] => some 0
  | ['Z'] => some 0
  | '.' :: a :: b :: c :: rest =>
      if a.isDigit && b.isDigit && c.isDigit then
        match rest with
        | [] => some (digitsToNat [a, b, c])
        | ['Z'] => some (digitsToNat [a, b, c])
        | _ => none
      else none
  | _ => none

/-- Shape match for the ISO-8601 regex of the communicator: succeeds exactly on
strings the regex accepts, returning the numeric fields. -/
def parseIsoChars (cs : List Char) : Option IsoFields :=
  match cs with
  | y1 :: y2 :: y3 :: y4 :: '-' :: m1 :: m2 :: '-' :: d1 :: d2 :: 'T' ::
      h1 :: h2 :: ':' :: n1 :: n2 :: ':' :: s1 :: s2 :: rest =>
      if [y1, y2, y3, y4, m1, m2, d1, d2, h1, h2, n1, n2, s1, s2].all Char.isDigit then
        match parseIsoTail rest with
        | some ms =>
            some
              { y := digitsToNat [y1, y2, y3, y4]
                mo := digitsToNat [m1, m2]
                d := digitsToNat [d1, d2]
                h := digitsToNat [h1, h2]
                mi := digitsToNat [n1, n2]
                s := digitsToNat [s1, s2]
                ms := ms }
        | none => none
      else none
  | _ => none

def isLeapYear (y : Nat) : Bool :=
  (y % 4 == 0 && y % 100 != 0) || y % 400 == 0

def daysInMonth (y mo : Nat) : Nat :=
  if mo = 2 then (if isLeapYear y then 29 else 28)
  else if mo = 4 ∨ mo = 6 ∨ mo = 9 ∨ mo = 11 then 30
  else 31

/-- ECMAScript `Date.parse` validity for a regex-matching timestamp:
calendar month and day in range, and the time fields in range (hour 24
only at exact midnight). -/
def isoFieldsValid (f : IsoFields) : Bool :=
  1 ≤ f.mo && f.mo ≤ 12 && 1 ≤ f.d && f.d ≤ daysInMonth f.y f.mo &&
    ((f.h ≤ 23 && f.mi ≤ 59 && f.s ≤ 59) ||
      (f.h == 24 && f.mi == 0 && f.s == 0 && f.ms == 0))

/-- Embeds `isValidISO8601` (agent-communicator.ts lines 415-418):
`iso8601Regex.test(s) && !isNaN(Date.parse(s))`.  For strings matching
the regex, `Date.parse` is `NaN` exactly when a calendar or time field is
out of range. -/
def isValidISO8601 (s : String) : Bool :=
  match parseIsoChars s.toList with
  | some f => isoFieldsValid f
  | none => false

/-- Required fields of the agent-response envelope. -/
def requiredFields : List String :=
  ["agent_id", "task_id", "phase", "timestamp", "results", "status"]

/-- The check `!response.status || typeof response.status.success !== "boolean"`,
negated: the `status` property is truthy and its `success` property is a
boolean. -/
def statusSuccessIsBool (b : JVal) : Bool :=
  match getField b "status" with
  | some st =>
      jvalTruthy st &&
        (match getField st "success" with
         | some (.bool _) => true
         | _ => false)
  | none => false

/-- The timestamp property passes `isValidISO8601` (the regex test and
`Date.parse` coerce their argument to a string). -/
def timestampValidJS (b : JVal) : Bool :=
  match getField b "timestamp" with
  | some v => isValidISO8601 (jsToString v)
  | none => false

inductive VOutcome : Type where
  | valid : VOutcome
  | invalid : String → VOutcome
  /-- A JS `TypeError`: `field in response` throws on a truthy primitive;
  the exception is caught by the caller, not turned into a validation
  error. -/
  | jsError : VOutcome

/-- Embeds `validateAgentResponse` (agent-communicator.ts lines 229-253). -/
def validateAgentResponse (r : JVal) : VOutcome :=
  if jvalTruthy r = false then .invalid "Empty response"
  else if isObjJS r = false then .jsError
  else
    match requiredFields.find? (fun f => !hasFieldB r f) with
    | some f => .invalid ("Missing required field: " ++ f)
    | none =>
        if statusSuccessIsBool r = false then .invalid "Invalid status object"
        else if timestampValidJS r = false then .invalid "Invalid timestamp format"
        else .valid

structure AgentEndpoint where
  agent_id : String
  base_url : String
  execute_path : String
  health_path : String
  status_path : String
  timeout_ms : Nat
  retry_attempts : Nat

def defaultTimeout : Nat := 180000

def defaultRetries : Nat := 2

/-- Embeds `initializeAgentEndpoints` (agent-communicator.ts lines 39-82). -/
def initialAgentEndpoints : List (String × AgentEndpoint) :=
  [("notion",
    { agent_id := "notion"
      base_url := "http://host.docker.internal:5678"
      execute_path := "/webhook/notion-agent-execute"
      health_path := "/webhook/notion-agent-health"
      status_path := "/webhook/notion-agent-status"
      timeout_ms := defaultTimeout
      retry_attempts := defaultRetries }),
   ("planner",
    { agent_id := "planner"
      base_url := "http://host.docker.internal:5678"
      execute_path := "/webhook/planner-agent-execute"
      health_path := "/webhook/planner-agent-health"
      status_path := "/webhook/planner-agent-status"
      timeout_ms := defaultTimeout
      retry_attempts := defaultRetries }),
   ("validation",
    { agent_id := "validation"
      base_url := "http://host.docker.internal:5678"
      execute_path := "/webhook/validation-agent-execute"
      health_path := "/webhook/validation-agent-health"
      status_path := "/webhook/validation-agent-status"
      timeout_ms := defaultTimeout
      retry_attempts := defaultRetries })]

/-- The backoff delay `min(1000 * Math.pow(2, attempt - 1), 10000)` (line 209). -/
def backoffDelay (attempt : Nat) : Nat :=
  min (1000 * 2 ^ (attempt - 1)) 10000

/-- The body of the `for` loop of `sendWithRetry` over the listed attempt
numbers: a success returns at once; a failure becomes the new last error
and, when the attempt number is at most `retry_attempts`, sleeps the
backoff delay before the next attempt.  Returns the number of attempts
performed, the delays slept, and the final outcome (the thrown last error
when every attempt failed). -/
def runAttempts (transport : Nat → Except String JVal) (retryAttempts : Nat) :
    List Nat → Except String JVal → Nat × List Nat × Except String JVal
  | [], last => (0, [], last)
  | a :: rest, _ =>
      match transport a with
      | .ok r => (1, [], .ok r)
      | .error e =>
          let tail := runAttempts transport retryAttempts rest (.error e)
          if a ≤ retryAttempts then
            (tail.1 + 1, backoffDelay a :: tail.2.1, tail.2.2)
          else
            (tail.1 + 1, tail.2.1, tail.2.2)

/-- Embeds `sendWithRetry` (agent-communicator.ts lines 170-224): attempts
`1, 2, ..., retry_attempts + 1`. -/
def sendWithRetry (transport : Nat → Except String JVal)
    (endpoint : AgentEndpoint) : Nat × List Nat × Except String JVal :=
  runAttempts transport endpoint.retry_attempts
    (List.range' 1 (endpoint.retry_attempts + 1)) (.error "")

/-- Message of the `TypeError` thrown by `field in response` on a truthy
primitive body; the exact JS wording is engine-specific, only the fact
that the exception reaches the outer catch matters. -/
def typeErrorMessage : String :=
  "TypeError: cannot use the in operator on a primitive response"

/-- The envelope returned by `sendInstructionsToAgent`, extended with the
observable attempt count and backoff delays of the retry loop. -/
structure SendOutcome where
  success : Bool
  error : Option String
  data : Option JVal
  attempts : Nat
  delays : List Nat

/-- Embeds `sendInstructionsToAgent` (agent-communicator.ts lines 88-165):
endpoint lookup, the retry loop, then response validation on the body of
the first transport success. -/
def sendInstructionsToAgent (endpoints : List (String × AgentEndpoint))
    (transport : Nat → Except String JVal) (agentId : String) : SendOutcome :=
  match getKey endpoints agentId with
  | none =>
      { success := false
        error := some ("Agent endpoint not configured: " ++ agentId)
        data := none, attempts := 0, delays := [] }
  | some ep =>
      let res := sendWithRetry transport ep
      match res.2.2 with
      | .error e =>
          { success := false
            error := some ("Agent communication failed: " ++ e)
            data := none, attempts := res.1, delays := res.2.1 }
      | .ok body =>
          match validateAgentResponse body with
          | .valid =>
              { success := true, error := none, data := some body
                attempts := res.1, delays := res.2.1 }
          | .invalid msg =>
              { success := false
                error := some ("Invalid agent response: " ++ msg)
                data := some body, attempts := res.1, delays := res.2.1 }
          | .jsError =>
              { success := false
                error := some ("Agent communication failed: " ++ typeErrorMessage)
                data := none, attempts := res.1, delays := res.2.1 }

def sampleEndpoint : AgentEndpoint :=
  { agent_id := "notion"
    base_url := "http://host.docker.internal:5678"
    execute_path := "/webhook/notion-agent-execute"
    health_path := "/webhook/notion-agent-health"
    status_path := "/webhook/notion-agent-status"
    timeout_ms := 180000
    retry_attempts := 2 }

/-! ### Template manager (template-manager.ts)

Placeholder substitution: the JS global replace of
`/\{\{([^\x7d]+)\}\}/g` is embedded as a left-to-right scanner.  At each
`\x7b\x7b` the regex takes the maximal run of non-`\x7d` characters; the
run must be non-empty and be followed by `\x7d\x7d` for a match, which is
exactly `takeInner`. -/

def takeInner (cs : List Char) : Option (List Char × List Char) :=
  match cs.takeWhile (fun c => c ≠ '}'), cs.dropWhile (fun c => c ≠ '}') with
  | [], _ => none
  | a :: run, '}' :: '}' :: rest' => some (a :: run, rest')
  | _ :: _, _ => none

/-- The global regex replace over one string (template-manager.ts lines
276-280): at each `\x7b\x7b` the maximal non-`\x7d` run followed by
`\x7d\x7d` is a match; the trimmed run is looked up in the replacement
dictionary, a hit substitutes the value coerced to a string
(`String.prototype.replace` stringifies the callback result), a miss
leaves the matched text unchanged (`value !== undefined ? value :
match`).  A failed match emits the two braces and rescans after them (a
fresh match cannot start at the second brace, see the regex shape). -/
def scanStr (repl : String → Option JVal) : List Char → List Char
  | [] => []
  | '{' :: '{' :: rest =>
      match h : takeInner rest with
      | some (inner, rest') =>
          (match repl (String.mk (trimChars inner)) with
           | some v => (jsToString v).toList
           | none => '{' :: '{' :: (inner ++ '}' :: '}' :: [])) ++ scanStr repl rest'
      | none => '{' :: '{' :: scanStr repl rest
  | c :: rest => c :: scanStr repl rest
termination_by cs => cs.length
decreasing_by
  · have hlen : rest'.length < rest.length := by
      have hsplit := List.takeWhile_append_dropWhile (fun c : Char => decide (c ≠ '}')) rest
      unfold takeInner at h
      split at h
      · exact absurd h (by simp)
      · rename_i a run rest0 htake hdrop
        simp only [Option.some.injEq, Prod.mk.injEq] at h
        obtain ⟨rfl, rfl⟩ := h
        rw [htake, hdrop] at hsplit
        rw [← hsplit]
        simp
        omega
      · exact absurd h (by simp)
    simp only [List.length_cons]
    omega
  · simp only [List.length_cons]
    omega
  · simp only [List.length_cons]
    omega

mutual
/-- Embeds `replaceTemplateVariables` (template-manager.ts lines 274-296):
recursive walk over strings, arrays and objects; all other values are
returned unchanged. -/
def replaceTemplateVariables (repl : String → Option JVal) : JVal → JVal
  | .str s => .str (String.mk (scanStr repl s.toList))
  | .arr xs => .arr (replaceTemplateList repl xs)
  | .obj kvs => .obj (replaceTemplateObj repl kvs)
  | v => v

def replaceTemplateList (repl : String → Option JVal) : List JVal → List JVal
  | [] => []
  | x :: xs => replaceTemplateVariables repl x :: replaceTemplateList repl xs

def replaceTemplateObj (repl : String → Option JVal) :
    List (String × JVal) → List (String × JVal)
  | [] => []
  | (k, v) :: kvs => (k, replaceTemplateVariables repl v) :: replaceTemplateObj repl kvs
end

/-- The `replacements` dictionary of `populateParameters`
(template-manager.ts lines 259-266): four fixed
`workflow.context.database_ids.*` keys drawing from the named caller
parameters, `workflow.parameters.idea_limit` as `limit || 5`, and the
spread of the keys of the caller.  The object-literal spread comes last,
so a caller key shadows a fixed one; a fixed key whose named parameter is
absent holds `undefined`, which the replace callback treats as a miss. -/
def buildReplacements (rp : List (String × JVal)) : String → Option JVal :=
  fun key =>
    match getKey rp key with
    | some v => some v
    | none =>
        if key = "workflow.context.database_ids.ideas" then
          getKey rp "source_database_id"
        else if key = "workflow.context.database_ids.projects" then
          getKey rp "projects_database_id"
        else if key = "workflow.context.database_ids.knowledge" then
          getKey rp "knowledge_database_id"
        else if key = "workflow.context.database_ids.journal" then
          getKey rp "journal_database_id"
        else if key = "workflow.parameters.idea_limit" then
          some (jsOr (getKey rp "limit") (JVal.num 5))
        else none

/-- Embeds `populateParameters` (template-manager.ts lines 253-269): falsy
template parameters compile to `\x7b\x7d`; otherwise the parameters are
deep-cloned (`JSON.parse(JSON.stringify(..))`, the identity on JSON
values) and walked. -/
def populateParameters (templateParams : JVal) (rp : List (String × JVal)) : JVal :=
  if jvalTruthy templateParams = false then .obj []
  else replaceTemplateVariables (buildReplacements rp) templateParams

/-! ### Template manager: loading, caching and methodology extraction -/

structure AgentInstructions where
  task_type : String
  behavior : String
  prompt_reference : String
  required_tools : List String
  parameters : JVal
  expected_output_format : String

structure WorkflowPhase where
  phase_id : String
  phase_name : String
  sequence : Nat
  agent : String
  timeout_seconds : Nat
  retry_attempts : Nat
  agent_instructions : AgentInstructions

structure WorkflowTemplate where
  workflow_id : String
  workflow_name : String
  workflow_type : String
  version : String
  phases : List WorkflowPhase

/-- Embeds `loadTemplate` (template-manager.ts lines 301-339), over an explicit
registry (the parsed `template-registry.json`, mapping workflow type to
file path) and a disk oracle (`none` is a read or parse failure).  A disk
load inserts the template into the cache before returning. -/
def loadTemplate (registry : List (String × String))
    (files : String → Option WorkflowTemplate)
    (cache : List (String × WorkflowTemplate)) (workflowType : String) :
    Option WorkflowTemplate × List (String × WorkflowTemplate) :=
  match getKey cache workflowType with
  | some t => (some t, cache)
  | none =>
      match getKey registry workflowType with
      | none => (none, cache)
      | some path =>
          match files path with
          | none => (none, cache)
          | some t => (some t, setKey cache workflowType t)

/-- The result envelope of `getWorkflowTemplate` with its metadata
fields. -/
structure TemplateResult where
  success : Bool
  data : Option WorkflowTemplate
  error : Option String
  template_id : Option String
  version : Option String
  phases : Option Nat
  cache_hit : Option Bool
  available_templates : Option (List String)

/-- Embeds `getWorkflowTemplate` (template-manager.ts lines 37-70).  The
`cache_hit` metadata flag is `templateCache.has(workflowType)` evaluated
on the cache *after* `loadTemplate` has run. -/
def getWorkflowTemplate (registry : List (String × String))
    (files : String → Option WorkflowTemplate)
    (cache : List (String × WorkflowTemplate)) (workflowType : String) :
    TemplateResult × List (String × WorkflowTemplate) :=
  let res := loadTemplate registry files cache workflowType
  match res.1 with
  | none =>
      ({ success := false
         data := none
         error := some ("Workflow template not found: " ++ workflowType)
         template_id := none, version := none, phases := none, cache_hit := none
         available_templates := some (registry.map (·.1)) }, res.2)
  | some t =>
      ({ success := true
         data := some t
         error := none
         template_id := some t.workflow_id
         version := some t.version
         phases := some t.phases.length
         cache_hit := some (hasKey res.2 workflowType)
         available_templates := none }, res.2)

structure TaggingRules where
  max_tags : JVal
  predefined_only : JVal
  available_tags : JVal
  selection_criteria : String

structure CategorizationMethodology where
  multi_idea_parsing_rules : List String
  database_routing_criteria : JVal
  tagging_rules : TaggingRules
  analysis_requirements : List (String × String)

structure DatabaseExecution where
  operations : JVal
  validation_rules : List (String × String)

structure ContentProcessing where
  parsing_rules : List String
  transformation_rules : List String

/-- Embeds `extractCategorizationMethodology` (template-manager.ts lines
189-215).  The tagging values come from the untyped JSON phase
parameters through JS `?.` and `||`, so they are kept as JSON values;
in particular `predefined_only` is
`params.tagging_config?.predefined_only || true`. -/
def extractCategorizationMethodology (phase : WorkflowPhase)
    (parameters : List (String × JVal)) : CategorizationMethodology :=
  let params := phase.agent_instructions.parameters
  let tc := getField params "tagging_config"
  { multi_idea_parsing_rules :=
      ["Paragraph Separation: Each paragraph may contain a distinct idea",
       "Empty Block Delimiter: Extra empty blocks separate ideas",
       "Link + Description Grouping: Text above links describes that link",
       "Topic Shift Detection: Identify complete topic changes",
       "Context Preservation: Maintain original meaning and intent"]
    database_routing_criteria :=
      populateParameters (jsOr (getField params "categorization_rules") (.obj []))
        parameters
    tagging_rules :=
      { max_tags := jsOr (optChainField tc "max_tags") (JVal.num 3)
        predefined_only := jsOr (optChainField tc "predefined_only") (JVal.bool true)
        available_tags := jsOr (optChainField tc "tag_list") (JVal.arr [])
        selection_criteria :=
          "Choose tags that best describe content type, domain, or purpose - most relevant first" }
    analysis_requirements :=
      [("assess_actionability", "Determine if idea requires action (Yes/No)"),
       ("evaluate_reference_value", "Rate reference value (High/Medium/Low)"),
       ("identify_personal_insight", "Check if contains personal thoughts (Yes/No)"),
       ("assign_priority", "Set priority level (High/Medium/Low)"),
       ("provide_reasoning", "Explain categorization decision in 1-2 sentences")] }

/-- Embeds `extractDatabaseExecution` (template-manager.ts lines 220-229). -/
def extractDatabaseExecution (_phase : WorkflowPhase)
    (parameters : List (String × JVal)) : DatabaseExecution :=
  { operations := jsOr (getKey parameters "operations") (JVal.arr [])
    validation_rules :=
      [("verify_creation", "Confirm page was created successfully"),
       ("check_properties", "Validate all required properties are set"),
       ("handle_duplicates", "Check for existing pages with same title")] }

/-- Embeds `extractContentProcessing` (template-manager.ts lines 234-247). -/
def extractContentProcessing (_phase : WorkflowPhase)
    (_parameters : List (String × JVal)) : ContentProcessing :=
  { parsing_rules :=
      ["Extract key information from content",
       "Identify actionable items vs reference material",
       "Preserve context and relationships"]
    transformation_rules :=
      ["Convert unstructured content to structured format",
       "Apply consistent formatting and tags",
       "Enhance with metadata and classifications"] }

structure ExtractedInstructions where
  core_task_type : String
  core_objective : String
  core_params : JVal
  methodology_categorization : Option CategorizationMethodology
  methodology_database_execution : Option DatabaseExecution
  methodology_content_processing : Option ContentProcessing
  required_tools : List String
  timeout_seconds : Nat
  response_format : String
  processing_approach : JVal

/-- Embeds `extractInstructions` (template-manager.ts lines 140-184): the
methodology sections are attached by substring match on the task type of
the phase.  The spread of the populated parameters into the core
instruction is kept
as a separate `core_params` field. -/
def extractInstructions (_template : WorkflowTemplate) (phase : WorkflowPhase)
    (parameters : List (String × JVal)) : ExtractedInstructions :=
  let tt := phase.agent_instructions.task_type
  { core_task_type := tt
    core_objective := phase.agent_instructions.behavior
    core_params := populateParameters phase.agent_instructions.parameters parameters
    methodology_categorization :=
      if includes tt "categorization" then
        some (extractCategorizationMethodology phase parameters)
      else none
    methodology_database_execution :=
      if includes tt "database" || includes tt "update" then
        some (extractDatabaseExecution phase parameters)
      else none
    methodology_content_processing :=
      if includes tt "content" then
        some (extractContentProcessing phase parameters)
      else none
    required_tools := phase.agent_instructions.required_tools
    timeout_seconds := phase.timeout_seconds
    response_format := phase.agent_instructions.expected_output_format
    processing_approach :=
      jsOr (optChainField (some phase.agent_instructions.parameters) "processing_approach")
        (.str "Execute task according to provided methodology") }

def samplePhase : WorkflowPhase :=
  { phase_id := "phase_1_idea_categorization"
    phase_name := "Idea Categorization"
    sequence := 1
    agent := "notion"
    timeout_seconds := 300
    retry_attempts := 2
    agent_instructions :=
      { task_type := "multi_idea_categorization"
        behavior := "Parse and categorize ideas"
        prompt_reference := "categorization_v1"
        required_tools := ["get_ideas", "update_idea"]
        parameters :=
          .obj [("tagging_config", .obj [("predefined_only", .bool false)])]
        expected_output_format := "json" } }

def sampleTemplate : WorkflowTemplate :=
  { workflow_id := "idea_categorization_v1"
    workflow_name := "Idea Categorization"
    workflow_type := "idea_categorization"
    version := "1.0"
    phases := [samplePhase] }

def sampleRegistry : List (String × String) :=
  [("idea_categorization", "idea-categorization-v1.json")]

def sampleFiles : String → Option WorkflowTemplate :=
  fun p => if p = "idea-categorization-v1.json" then some sampleTemplate else none

/-! ### Association-list lemmas -/

theorem getKey_setKey_self {α : Type} (l : List (String × α)) (k : String) (v : α) :
    getKey (setKey l k v) k = some v := by
  induction l with
  | nil => simp [setKey, getKey]
  | cons hd tl ih =>
    obtain ⟨k', v'⟩ := hd
    by_cases h : k' = k
    · simp [setKey, h, getKey]
    · simp [setKey, h, getKey, ih]

theorem getKey_setKey_ne {α : Type} (l : List (String × α)) (k q : String) (v : α)
    (hne : q ≠ k) : getKey (setKey l k v) q = getKey l q := by
  have hkq : ¬ k = q := fun h => hne h.symm
  induction l with
  | nil => simp [setKey, getKey, hkq]
  | cons hd tl ih =>
    obtain ⟨k', v'⟩ := hd
    by_cases h : k' = k
    · subst h
      simp [setKey, getKey, hkq]
    · by_cases h2 : k' = q
      · subst h2
        simp [setKey, h, getKey]
      · simp [setKey, h, getKey, h2, ih]

theorem hasKey_setKey_self {α : Type} (l : List (String × α)) (k : String) (v : α) :
    hasKey (setKey l k v) k = true := by
  simp [hasKey, getKey_setKey_self]

/-! ### Claim theorems: context manager -/

/-- C1: for every known context and agent response,
`updateContextWithAgentResponse` reports as `next_phase` exactly the
rule of the specification (explicit non-empty hint used, `"workflow_complete"`
mapped to `"complete"`, otherwise the substring heuristic on the
completed phase, `"unknown"` as default), and `workflow_complete` is
exactly `next_phase == "complete"`. -/
theorem update_determines_next_phase_per_spec
    (contexts : List (String × SharedWorkflowContext)) (clock : Clock)
    (cid : String) (resp : AgentToDirectorResponse) (ctx : SharedWorkflowContext)
    (h : getKey contexts cid = some ctx) :
    let r := (updateContextWithAgentResponse contexts clock cid resp).1
    r.success = true ∧
    r.data.map (·.next_phase) =
      some (determineNextPhaseSpec resp.phase resp.status.next_phase) ∧
    r.data.map (·.workflow_complete) =
      r.data.map (fun d => decide (d.next_phase = "complete")) := by
  unfold updateContextWithAgentResponse
  rw [h]
  exact ⟨rfl, rfl, rfl⟩

theorem update_determines_next_phase_per_spec_witness :
    let r := (updateContextWithAgentResponse [("c1", sampleContext)] sampleClock
      "c1" (mkResponse "idea_categorization" "" true [])).1
    r.success = true ∧
    r.data.map (·.next_phase) = some (determineNextPhaseSpec "idea_categorization" "") ∧
    r.data.map (·.workflow_complete) =
      r.data.map (fun d => decide (d.next_phase = "complete")) :=
  update_determines_next_phase_per_spec [("c1", sampleContext)] sampleClock "c1"
    (mkResponse "idea_categorization" "" true []) sampleContext rfl

/-- C5: updating an unknown context id fails with the ContextNotFound
error and leaves the context map untouched. -/
theorem update_unknown_context_is_noop
    (contexts : List (String × SharedWorkflowContext)) (clock : Clock)
    (cid : String) (resp : AgentToDirectorResponse)
    (h : getKey contexts cid = none) :
    (updateContextWithAgentResponse contexts clock cid resp).1 =
      { success := false, data := none, error := some ("Context not found: " ++ cid) } ∧
    (updateContextWithAgentResponse contexts clock cid resp).2 = contexts := by
  unfold updateContextWithAgentResponse
  rw [h]
  exact ⟨rfl, rfl⟩

theorem update_unknown_context_is_noop_witness :
    (updateContextWithAgentResponse [] sampleClock "nope"
        (mkResponse "p" "" true [])).1 =
      { success := false, data := none, error := some ("Context not found: " ++ "nope") } ∧
    (updateContextWithAgentResponse [] sampleClock "nope"
        (mkResponse "p" "" true [])).2 = [] :=
  update_unknown_context_is_noop [] sampleClock "nope" (mkResponse "p" "" true []) rfl

/-- C6 counterexample: the claim says an error string containing none of
"timeout", the data-store name and "validation" gets the generic
review-logs suggestion, but the code has an extra branch for strings
containing "tool": the update for the error `"tool failure"` records the
MCP-tool suggestion instead of the generic one. -/
theorem suggest_action_tool_branch_counterexample :
    (includes "tool failure" "timeout" = false ∧
     includes "tool failure" "database" = false ∧
     includes "tool failure" "validation" = false) ∧
    ((getKey (updateContextWithAgentResponse [("c1", sampleContext)] sampleClock "c1"
        (mkResponse "idea_categorization" "" false ["tool failure"])).2 "c1").map
      (fun c => c.error_log.map (·.suggested_action))) =
      some ["Verify MCP tool availability and configuration"] ∧
    "Verify MCP tool availability and configuration" ≠
      "Review error details and agent logs for specific resolution" := by
  refine ⟨⟨by decide, by decide, by decide⟩, rfl, by decide⟩

/-- C6 (amended): for every known context and response with
`status.success = false`, the update operation itself still succeeds, and
exactly one error-log entry is appended per reported error string, whose
`suggested_action` follows the substring rule of the spec extended with
the extra "tool" branch of the code (timeout, database, validation, tool, then the
generic suggestion). -/
theorem update_failure_appends_error_log
    (contexts : List (String × SharedWorkflowContext)) (clock : Clock)
    (cid : String) (resp : AgentToDirectorResponse) (ctx : SharedWorkflowContext)
    (h : getKey contexts cid = some ctx) (hfail : resp.status.success = false) :
    (updateContextWithAgentResponse contexts clock cid resp).1.success = true ∧
    ((getKey (updateContextWithAgentResponse contexts clock cid resp).2 cid).map
        (·.error_log)) =
      some (ctx.error_log ++ resp.status.errors.map (fun e =>
        { timestamp := resp.timestamp
          error_type := "agent_execution_error"
          error_message := e
          ctx_agent_id := resp.agent_id
          ctx_task_id := resp.task_id
          ctx_phase := resp.phase
          suggested_action := suggestedActionSpec e
          agent_id := resp.agent_id
          phase := resp.phase })) := by
  have hspec : ∀ e, suggestErrorAction e = suggestedActionSpec e := fun _ => rfl
  unfold updateContextWithAgentResponse
  rw [h]
  refine ⟨rfl, ?_⟩
  rw [getKey_setKey_self]
  simp [hfail, addErrorToContext, hspec]

theorem update_failure_appends_error_log_witness :
    (updateContextWithAgentResponse [("c1", sampleContext)] sampleClock "c1"
        (mkResponse "idea_categorization" "" false ["timeout hit"])).1.success = true ∧
    ((getKey (updateContextWithAgentResponse [("c1", sampleContext)] sampleClock "c1"
          (mkResponse "idea_categorization" "" false ["timeout hit"])).2 "c1").map
        (·.error_log)) =
      some (sampleContext.error_log ++ ["timeout hit"].map (fun e =>
        { timestamp := "2025-01-01T00:00:00.000Z"
          error_type := "agent_execution_error"
          error_message := e
          ctx_agent_id := "notion"
          ctx_task_id := "task_1"
          ctx_phase := "idea_categorization"
          suggested_action := suggestedActionSpec e
          agent_id := "notion"
          phase := "idea_categorization" })) :=
  update_failure_appends_error_log [("c1", sampleContext)] sampleClock "c1"
    (mkResponse "idea_categorization" "" false ["timeout hit"]) sampleContext rfl rfl

/-- C7 counterexample: in the end-to-end scenario (fresh context for
workflow `"idea_categorization"`, agent response for the categorization
phase with `status.success = true` and
`status.next_phase = "execution_planning"`), the update reports
`workflow_complete = false` as claimed, but `current_phase` is the
completed categorization phase, not `"execution_planning"`. -/
theorem scenario_current_phase_counterexample :
    let r := (updateContextWithAgentResponse [("c1", sampleContext)] sampleClock "c1"
      (mkResponse "idea_categorization" "execution_planning" true [])).1
    r.data.map (·.current_phase) = some "idea_categorization" ∧
    "idea_categorization" ≠ "execution_planning" ∧
    r.data.map (·.workflow_complete) = some false := by
  exact ⟨rfl, by decide, rfl⟩

/-- C7 (amended): in the end-to-end scenario the update reports
`workflow_complete = false`, `next_phase = "execution_planning"`, and
`current_phase` equal to the completed phase carried by the response. -/
theorem scenario_reports_next_phase_execution_planning
    (contexts : List (String × SharedWorkflowContext)) (clock : Clock)
    (cid : String) (resp : AgentToDirectorResponse) (ctx : SharedWorkflowContext)
    (h : getKey contexts cid = some ctx)
    (hnp : resp.status.next_phase = "execution_planning") :
    let r := (updateContextWithAgentResponse contexts clock cid resp).1
    r.data.map (·.current_phase) = some resp.phase ∧
    r.data.map (·.next_phase) = some "execution_planning" ∧
    r.data.map (·.workflow_complete) = some false := by
  unfold updateContextWithAgentResponse
  rw [h]
  by_cases hs : resp.status.success <;>
    simp [hs, addErrorToContext, determineNextPhase, hnp]

theorem scenario_reports_next_phase_execution_planning_witness :
    let r := (updateContextWithAgentResponse [("c1", sampleContext)] sampleClock "c1"
      (mkResponse "idea_categorization" "execution_planning" true [])).1
    r.data.map (·.current_phase) = some "idea_categorization" ∧
    r.data.map (·.next_phase) = some "execution_planning" ∧
    r.data.map (·.workflow_complete) = some false :=
  scenario_reports_next_phase_execution_planning [("c1", sampleContext)] sampleClock
    "c1" (mkResponse "idea_categorization" "execution_planning" true [])
    sampleContext rfl rfl

/-- C8: the update writes only under `phase_results[response.phase]`; for
every other phase id the stored entry is exactly what it was before. -/
theorem update_phase_results_frame
    (contexts : List (String × SharedWorkflowContext)) (clock : Clock)
    (cid : String) (resp : AgentToDirectorResponse) (ctx : SharedWorkflowContext)
    (q : String) (h : getKey contexts cid = some ctx) (hq : q ≠ resp.phase) :
    ((getKey (updateContextWithAgentResponse contexts clock cid resp).2 cid).map
        (fun c => getKey c.phase_results q)) =
      some (getKey ctx.phase_results q) := by
  unfold updateContextWithAgentResponse
  rw [h]
  rw [getKey_setKey_self]
  by_cases hs : resp.status.success <;>
    simp [hs, addErrorToContext, getKey_setKey_ne _ _ _ _ hq]

theorem update_phase_results_frame_witness :
    ((getKey (updateContextWithAgentResponse [("c1", sampleContext)] sampleClock "c1"
          (mkResponse "idea_categorization" "" true [])).2 "c1").map
        (fun c => getKey c.phase_results "validation")) =
      some (getKey sampleContext.phase_results "validation") :=
  update_phase_results_frame [("c1", sampleContext)] sampleClock "c1"
    (mkResponse "idea_categorization" "" true []) sampleContext "validation" rfl
    (by decide)

/-! ### Retry-loop lemmas -/

theorem runAttempts_all_fail (t : Nat → Except String JVal) (ra : Nat)
    (msgs : Nat → String) :
    ∀ (n s : Nat) (acc : Except String JVal), 1 ≤ n →
      (∀ i, s ≤ i → i < s + n → t i = .error (msgs i)) →
      runAttempts t ra (List.range' s n) acc =
        (n, ((List.range' s n).filter (fun a => decide (a ≤ ra))).map backoffDelay,
         .error (msgs (s + n - 1))) := by
  intro n
  induction n with
  | zero => intro s acc h1 _; omega
  | succ n ih =>
    intro s acc _ h
    have hs : t s = .error (msgs s) := h s le_rfl (by omega)
    rcases Nat.eq_zero_or_pos n with h0 | hpos
    · subst h0
      rw [List.range'_succ]
      by_cases hsra : s ≤ ra <;>
        simp [runAttempts, hs, hsra, List.range', List.filter_cons]
    · have htail := ih (s + 1) (.error (msgs s)) hpos
        (fun i hi1 hi2 => h i (by omega) (by omega))
      have hidx : s + 1 + n - 1 = s + (n + 1) - 1 := by omega
      rw [List.range'_succ]
      simp only [runAttempts, hs, htail, List.filter_cons]
      by_cases hsra : s ≤ ra <;> simp [hsra, hidx]

theorem filter_range'_le (ra : Nat) :
    ∀ (n s : Nat), s + n = ra + 1 →
      (List.range' s (n + 1)).filter (fun a => decide (a ≤ ra)) = List.range' s n := by
  intro n
  induction n with
  | zero =>
    intro s h
    rw [List.range'_succ]
    simp [List.range', List.filter_cons, show ¬ s ≤ ra by omega]
  | succ n ih =>
    intro s h
    have hrec := ih (s + 1) (by omega)
    rw [List.range'_succ, List.filter_cons, hrec, List.range'_succ]
    simp [show s ≤ ra by omega]

theorem runAttempts_first_ok (t : Nat → Except String JVal) (ra : Nat) (r : JVal) :
    ∀ (j n s : Nat) (acc : Except String JVal), j < n →
      (∀ i, s ≤ i → i < s + j → ∃ e, t i = .error e) →
      t (s + j) = .ok r →
      (runAttempts t ra (List.range' s n) acc).1 = j + 1 ∧
      (runAttempts t ra (List.range' s n) acc).2.2 = .ok r := by
  intro j
  induction j with
  | zero =>
    intro n s acc hj _ hok
    obtain ⟨m, rfl⟩ : ∃ m, n = m + 1 := ⟨n - 1, by omega⟩
    rw [Nat.add_zero] at hok
    rw [List.range'_succ]
    simp [runAttempts, hok]
  | succ j ih =>
    intro n s acc hj hfail hok
    obtain ⟨m, rfl⟩ : ∃ m, n = m + 1 := ⟨n - 1, by omega⟩
    obtain ⟨e, he⟩ := hfail s le_rfl (by omega)
    have hok' : t (s + 1 + j) = .ok r := by
      rw [show s + 1 + j = s + (j + 1) by omega]; exact hok
    have hrec := ih m (s + 1) (.error e) (by omega)
      (fun i hi1 hi2 => hfail i (by omega) (by omega)) hok'
    rw [List.range'_succ]
    simp only [runAttempts, he]
    by_cases hsra : s ≤ ra <;> simp [hsra, hrec.1, hrec.2]

/-! ### Claim theorems: agent communicator -/

/-- C2: against an endpoint whose every POST attempt fails, the retry
loop performs exactly `retry_attempts + 1` attempts, sleeping
`min(1000 * 2^(attempt-1), 10000)` ms after each failed attempt that is
followed by another (1s, 2s, 4s, ... capped at 10s), and surfaces the
last error; a first transport success at attempt `k` ends the loop
immediately with exactly `k` attempts performed. -/
theorem send_retry_attempts_and_backoff :
    (∀ (t : Nat → Except String JVal) (msgs : Nat → String) (ep : AgentEndpoint),
        (∀ i, 1 ≤ i → i ≤ ep.retry_attempts + 1 → t i = .error (msgs i)) →
        sendWithRetry t ep =
          (ep.retry_attempts + 1,
           (List.range ep.retry_attempts).map (fun i => min (1000 * 2 ^ i) 10000),
           .error (msgs (ep.retry_attempts + 1)))) ∧
    (∀ (t : Nat → Except String JVal) (ep : AgentEndpoint) (k : Nat) (r : JVal),
        1 ≤ k → k ≤ ep.retry_attempts + 1 →
        (∀ i, 1 ≤ i → i < k → ∃ e, t i = .error e) →
        t k = .ok r →
        (sendWithRetry t ep).1 = k ∧ (sendWithRetry t ep).2.2 = .ok r) := by
  constructor
  · intro t msgs ep hfail
    unfold sendWithRetry
    rw [runAttempts_all_fail t ep.retry_attempts msgs (ep.retry_attempts + 1) 1
      (.error "") (by omega) (fun i h1 h2 => hfail i h1 (by omega))]
    rw [filter_range'_le ep.retry_attempts ep.retry_attempts 1 (by omega)]
    rw [List.range'_eq_map_range]
    rw [List.map_map]
    rw [show 1 + (ep.retry_attempts + 1) - 1 = ep.retry_attempts + 1 by omega]
    refine congrArg (fun l => (ep.retry_attempts + 1, l,
      Except.error (msgs (ep.retry_attempts + 1)))) ?_
    refine List.map_congr_left (fun a _ => ?_)
    simp [backoffDelay, Function.comp, Nat.add_sub_cancel_left]
  · intro t ep k r hk1 hk2 hfail hok
    unfold sendWithRetry
    have hok' : t (1 + (k - 1)) = .ok r := by
      rw [show 1 + (k - 1) = k by omega]; exact hok
    have h := runAttempts_first_ok t ep.retry_attempts r (k - 1)
      (ep.retry_attempts + 1) 1 (.error "") (by omega)
      (fun i hi1 hi2 => hfail i hi1 (by omega)) hok'
    exact ⟨by rw [h.1]; omega, h.2⟩

theorem send_retry_attempts_and_backoff_witness :
    (sendWithRetry (fun i => Except.error (toString i)) sampleEndpoint =
      (3, [1000, 2000], Except.error "3")) ∧
    ((sendWithRetry (fun i => if i = 2 then Except.ok (JVal.num 1)
        else Except.error "down") sampleEndpoint).1 = 2 ∧
     (sendWithRetry (fun i => if i = 2 then Except.ok (JVal.num 1)
        else Except.error "down") sampleEndpoint).2.2 = Except.ok (JVal.num 1)) := by
  constructor
  · exact send_retry_attempts_and_backoff.1 (fun i => Except.error (toString i))
      (fun i => toString i) sampleEndpoint (fun i h1 h2 => rfl)
  · exact send_retry_attempts_and_backoff.2
      (fun i => if i = 2 then Except.ok (JVal.num 1) else Except.error "down")
      sampleEndpoint 2 (JVal.num 1) (by decide) (by decide)
      (fun i h1 h2 => by
        obtain rfl : i = 1 := by omega
        exact ⟨"down", rfl⟩)
      rfl

theorem validate_invalid_of_bad (b : JVal) (hobj : isObjJS b = true)
    (hbad : (∃ f ∈ requiredFields, hasFieldB b f = false) ∨
            statusSuccessIsBool b = false ∨ timestampValidJS b = false) :
    ∃ m, validateAgentResponse b = .invalid m := by
  have htruthy : jvalTruthy b = true := by
    cases b <;> simp_all [isObjJS, jvalTruthy]
  unfold validateAgentResponse
  rw [htruthy, hobj]
  cases hfind : requiredFields.find? (fun f => !hasFieldB b f) with
  | some f => exact ⟨"Missing required field: " ++ f, by simp [hfind]⟩
  | none =>
    have hall : ∀ f ∈ requiredFields, hasFieldB b f = true := by
      intro f hf
      have := List.find?_eq_none.mp hfind f hf
      simpa using this
    rcases hbad with ⟨f, hf, hmiss⟩ | hstat | hts
    · exact absurd (hall f hf) (by simp [hmiss])
    · exact ⟨"Invalid status object", by simp [hfind, hstat]⟩
    · by_cases hstat2 : statusSuccessIsBool b = false
      · exact ⟨"Invalid status object", by simp [hfind, hstat2]⟩
      · have hstat3 : statusSuccessIsBool b = true := by
          cases hs : statusSuccessIsBool b
          · exact absurd hs hstat2
          · rfl
        exact ⟨"Invalid timestamp format", by simp [hfind, hstat3, hts]⟩

/-- C3: when a transport-level success at attempt `k` carries a body that
is missing one of the six required fields, or whose `status.success` is
not a boolean, or whose `timestamp` is not valid ISO-8601,
`sendInstructionsToAgent` returns a failure envelope prefixed
"Invalid agent response:" and the number of POST attempts is exactly the
`k` performed by the retry loop — validation runs only after the loop has
returned and triggers no further attempt. -/
theorem invalid_agent_response_not_retried
    (endpoints : List (String × AgentEndpoint)) (t : Nat → Except String JVal)
    (agentId : String) (ep : AgentEndpoint) (k : Nat) (body : JVal)
    (hep : getKey endpoints agentId = some ep)
    (hk1 : 1 ≤ k) (hk2 : k ≤ ep.retry_attempts + 1)
    (hfail : ∀ i, 1 ≤ i → i < k → ∃ e, t i = .error e)
    (hok : t k = .ok body)
    (hobj : isObjJS body = true)
    (hbad : (∃ f ∈ requiredFields, hasFieldB body f = false) ∨
            statusSuccessIsBool body = false ∨ timestampValidJS body = false) :
    let r := sendInstructionsToAgent endpoints t agentId
    r.success = false ∧
    (∃ m, r.error = some ("Invalid agent response: " ++ m)) ∧
    r.attempts = k := by
  obtain ⟨m, hm⟩ := validate_invalid_of_bad body hobj hbad
  have hok' : t (1 + (k - 1)) = .ok body := by
    rw [show 1 + (k - 1) = k by omega]; exact hok
  have hsend := runAttempts_first_ok t ep.retry_attempts body (k - 1)
    (ep.retry_attempts + 1) 1 (.error "") (by omega)
    (fun i hi1 hi2 => hfail i hi1 (by omega)) hok'
  have h22 : (sendWithRetry t ep).2.2 = .ok body := by
    unfold sendWithRetry; exact hsend.2
  have h1 : (sendWithRetry t ep).1 = k := by
    unfold sendWithRetry; rw [hsend.1]; omega
  unfold sendInstructionsToAgent
  rw [hep]
  simp only [h22, hm, h1]
  exact ⟨trivial, ⟨m, rfl⟩, trivial⟩

theorem invalid_agent_response_not_retried_witness :
    let r := sendInstructionsToAgent initialAgentEndpoints
      (fun _ => Except.ok (JVal.obj [])) "notion"
    r.success = false ∧
    (∃ m, r.error = some ("Invalid agent response: " ++ m)) ∧
    r.attempts = 1 :=
  invalid_agent_response_not_retried initialAgentEndpoints
    (fun _ => Except.ok (JVal.obj [])) "notion" sampleEndpoint 1 (JVal.obj [])
    rfl (by decide) (by decide)
    (fun i h1 h2 => absurd h2 (by omega))
    rfl rfl
    (Or.inl ⟨"agent_id", by decide, rfl⟩)

/-! ### Scanner lemmas -/

theorem scanStr_nil (repl : String → Option JVal) : scanStr repl [] = [] := by
  simp [scanStr]

theorem scanStr_cons_ne (repl : String → Option JVal) (c : Char) (cs : List Char)
    (hc : c ≠ '{') : scanStr repl (c :: cs) = c :: scanStr repl cs := by
  conv_lhs => rw [scanStr.eq_def]
  split
  · rename_i heq
    exact absurd heq (by simp)
  · rename_i rest heq
    obtain ⟨rfl, _⟩ : c = '{' ∧ cs = '{' :: rest := by
      injection heq with h1 h2
      exact ⟨h1, h2⟩
    exact absurd rfl hc
  · rename_i c' rest heq
    injection heq with h1 h2
    subst h1; subst h2
    rfl

theorem takeWhile_no_brace (inner rest : List Char) (hnb : ∀ c ∈ inner, c ≠ '}') :
    (inner ++ '}' :: rest).takeWhile (fun c => decide (c ≠ '}')) = inner ∧
    (inner ++ '}' :: rest).dropWhile (fun c => decide (c ≠ '}')) = '}' :: rest := by
  induction inner with
  | nil => simp
  | cons a as ih =>
    have ha : a ≠ '}' := hnb a (by simp)
    have h2 := ih (fun c hc => hnb c (by simp [hc]))
    simp only [ne_eq, decide_not] at h2
    simp [ha, h2.1, h2.2]

theorem takeInner_spec (inner rest : List Char) (hne : inner ≠ [])
    (hnb : ∀ c ∈ inner, c ≠ '}') :
    takeInner (inner ++ '}' :: '}' :: rest) = some (inner, rest) := by
  obtain ⟨a, as, rfl⟩ : ∃ a as, inner = a :: as := by
    cases inner with
    | nil => exact absurd rfl hne
    | cons a as => exact ⟨a, as, rfl⟩
  have h := takeWhile_no_brace (a :: as) ('}' :: rest) hnb
  unfold takeInner
  rw [h.1, h.2]
  rfl

theorem scanStr_placeholder (repl : String → Option JVal) (inner rest : List Char)
    (hne : inner ≠ []) (hnb : ∀ c ∈ inner, c ≠ '}') :
    scanStr repl ('{' :: '{' :: (inner ++ '}' :: '}' :: rest)) =
      (match repl (String.mk (trimChars inner)) with
       | some v => (jsToString v).toList
       | none => '{' :: '{' :: (inner ++ '}' :: '}' :: [])) ++ scanStr repl rest := by
  conv_lhs => rw [scanStr.eq_def]
  split
  · rename_i heq
    exact absurd heq (by simp)
  · rename_i rest0 heq
    obtain rfl : rest0 = inner ++ '}' :: '}' :: rest := by
      injection heq with h1 h2
      injection h2 with h2a h2b
      exact h2b.symm
    rw [takeInner_spec inner rest hne hnb]
  · rename_i c' rest0 hx hy
    injection hy with h1 h2
    exact (hx (inner ++ '}' :: '}' :: rest) h1.symm h2.symm).elim

theorem scanStr_append_pre (repl : String → Option JVal) (pre cs : List Char)
    (hp : ∀ c ∈ pre, c ≠ '{') :
    scanStr repl (pre ++ cs) = pre ++ scanStr repl cs := by
  induction pre with
  | nil => rfl
  | cons a as ih =>
    have ha : a ≠ '{' := hp a (by simp)
    rw [List.cons_append, scanStr_cons_ne repl a (as ++ cs) ha,
      ih (fun c hc => hp c (by simp [hc])), List.cons_append]

theorem scanStr_subst_found (repl : String → Option JVal)
    (pre inner rest : List Char) (v : JVal)
    (hp : ∀ c ∈ pre, c ≠ '{') (hne : inner ≠ []) (hnb : ∀ c ∈ inner, c ≠ '}')
    (hr : repl (String.mk (trimChars inner)) = some v) :
    scanStr repl (pre ++ '{' :: '{' :: (inner ++ '}' :: '}' :: rest)) =
      pre ++ (jsToString v).toList ++ scanStr repl rest := by
  rw [scanStr_append_pre repl pre _ hp, scanStr_placeholder repl inner rest hne hnb, hr]
  simp [List.append_assoc]

theorem scanStr_subst_missing (repl : String → Option JVal)
    (pre inner rest : List Char)
    (hp : ∀ c ∈ pre, c ≠ '{') (hne : inner ≠ []) (hnb : ∀ c ∈ inner, c ≠ '}')
    (hr : repl (String.mk (trimChars inner)) = none) :
    scanStr repl (pre ++ '{' :: '{' :: (inner ++ '}' :: '}' :: rest)) =
      pre ++ '{' :: '{' :: (inner ++ '}' :: '}' :: scanStr repl rest) := by
  rw [scanStr_append_pre repl pre _ hp, scanStr_placeholder repl inner rest hne hnb, hr]
  simp [List.append_assoc]

theorem replaceTemplateList_eq_map (repl : String → Option JVal) (xs : List JVal) :
    replaceTemplateList repl xs = xs.map (replaceTemplateVariables repl) := by
  induction xs with
  | nil => rfl
  | cons x xs ih => simp [replaceTemplateList, ih]

theorem replaceTemplateObj_eq_map (repl : String → Option JVal)
    (kvs : List (String × JVal)) :
    replaceTemplateObj repl kvs =
      kvs.map (fun kv => (kv.1, replaceTemplateVariables repl kv.2)) := by
  induction kvs with
  | nil => rfl
  | cons kv kvs ih =>
    obtain ⟨k, v⟩ := kv
    simp [replaceTemplateObj, ih]

/-! ### Claim theorems: template manager -/

/-- C4: parameter substitution walks objects, arrays and strings; inside
a string, a placeholder whose brace-free body trims to a key of the
replacement dictionary is replaced by the mapped value (coerced to a
string), and a placeholder whose body is not a key is left as the literal
placeholder text; in particular the fragment `"\x7b\x7ba.b\x7d\x7d"` with
runtime map `a.b ↦ "X"` compiles to `"X"`. -/
theorem template_placeholder_substitution :
    (∀ (repl : String → Option JVal) (pre inner rest : List Char) (v : JVal),
        (∀ c ∈ pre, c ≠ '{') → inner ≠ [] → (∀ c ∈ inner, c ≠ '}') →
        repl (String.mk (trimChars inner)) = some v →
        scanStr repl (pre ++ '{' :: '{' :: (inner ++ '}' :: '}' :: rest)) =
          pre ++ (jsToString v).toList ++ scanStr repl rest) ∧
    (∀ (repl : String → Option JVal) (pre inner rest : List Char),
        (∀ c ∈ pre, c ≠ '{') → inner ≠ [] → (∀ c ∈ inner, c ≠ '}') →
        repl (String.mk (trimChars inner)) = none →
        scanStr repl (pre ++ '{' :: '{' :: (inner ++ '}' :: '}' :: rest)) =
          pre ++ '{' :: '{' :: (inner ++ '}' :: '}' :: scanStr repl rest)) ∧
    (∀ (repl : String → Option JVal) (xs : List JVal),
        replaceTemplateVariables repl (.arr xs) =
          .arr (xs.map (replaceTemplateVariables repl))) ∧
    (∀ (repl : String → Option JVal) (kvs : List (String × JVal)),
        replaceTemplateVariables repl (.obj kvs) =
          .obj (kvs.map (fun kv => (kv.1, replaceTemplateVariables repl kv.2)))) ∧
    populateParameters (.str "\x7b\x7ba.b\x7d\x7d") [("a.b", JVal.str "X")] = .str "X" := by
  refine ⟨scanStr_subst_found, scanStr_subst_missing, ?_, ?_, ?_⟩
  · intro repl xs
    simp [replaceTemplateVariables, replaceTemplateList_eq_map]
  · intro repl kvs
    simp [replaceTemplateVariables, replaceTemplateObj_eq_map]
  · have h0 : ("\x7b\x7ba.b\x7d\x7d" : String).toList =
        '{' :: '{' :: (['a', '.', 'b'] ++ '}' :: '}' :: ([] : List Char)) := by decide
    unfold populateParameters
    rw [if_neg (by decide)]
    simp only [replaceTemplateVariables]
    rw [h0, scanStr_placeholder (buildReplacements [("a.b", JVal.str "X")])
      ['a', '.', 'b'] [] (by decide) (by decide)]
    rw [scanStr_nil]
    have h1 : buildReplacements [("a.b", JVal.str "X")]
        { data := trimChars ['a', '.', 'b'] } = some (JVal.str "X") := rfl
    rw [h1]
    simp [jsToString]

theorem template_placeholder_substitution_witness :
    scanStr (fun k => if k = "a.b" then some (JVal.str "X") else none)
        (['>'] ++ '{' :: '{' :: (['a', '.', 'b'] ++ '}' :: '}' :: [])) =
      ['>'] ++ (jsToString (JVal.str "X")).toList ++
        scanStr (fun k => if k = "a.b" then some (JVal.str "X") else none) [] :=
  template_placeholder_substitution.1
    (fun k => if k = "a.b" then some (JVal.str "X") else none)
    ['>'] ['a', '.', 'b'] [] (JVal.str "X")
    (by decide) (by decide) (by decide) rfl

/-- C9: whenever `getWorkflowTemplate` succeeds, the returned
`metadata.cache_hit` flag is `true` — including on the very first call
that loads the template from disk — because `loadTemplate` inserts the
template into the cache before the flag is computed; the flag never
distinguishes a cache hit from a disk load. -/
theorem cache_hit_flag_always_true (registry : List (String × String))
    (files : String → Option WorkflowTemplate)
    (cache : List (String × WorkflowTemplate)) (wt : String)
    (h : (getWorkflowTemplate registry files cache wt).1.success = true) :
    (getWorkflowTemplate registry files cache wt).1.cache_hit = some true := by
  unfold getWorkflowTemplate at h ⊢
  unfold loadTemplate at h ⊢
  cases hc : getKey cache wt with
  | some t => simp [hc, hasKey]
  | none =>
    cases hr : getKey registry wt with
    | none => simp [hc, hr] at h
    | some path =>
      cases hf : files path with
      | none => simp [hc, hr, hf] at h
      | some t => simp [hc, hr, hf, hasKey_setKey_self]

theorem cache_hit_flag_always_true_witness :
    (getWorkflowTemplate sampleRegistry sampleFiles [] "idea_categorization").1.cache_hit =
      some true :=
  cache_hit_flag_always_true sampleRegistry sampleFiles [] "idea_categorization" rfl

/-- C10: for every phase whose task type contains "categorization", the
extracted tagging rule `predefined_only` is `true` whenever the
configured value is a boolean or absent — even when `tagging_config`
explicitly sets it to `false` — because it is computed as
`tagging_config?.predefined_only || true`. -/
theorem predefined_only_always_true (template : WorkflowTemplate)
    (phase : WorkflowPhase) (parameters : List (String × JVal))
    (hcat : includes phase.agent_instructions.task_type "categorization" = true)
    (hconf : optChainField (getField phase.agent_instructions.parameters
        "tagging_config") "predefined_only" = none ∨
      ∃ b, optChainField (getField phase.agent_instructions.parameters
        "tagging_config") "predefined_only" = some (JVal.bool b)) :
    (extractInstructions template phase parameters).methodology_categorization.map
      (fun m => m.tagging_rules.predefined_only) = some (JVal.bool true) := by
  unfold extractInstructions
  simp only [hcat, if_true, Option.map_some]
  unfold extractCategorizationMethodology
  rcases hconf with hcfg | ⟨b, hcfg⟩
  · simp [hcfg, jsOr]
  · cases b
    · simp [hcfg, jsOr, jvalTruthy]
    · simp [hcfg, jsOr, jvalTruthy]

theorem predefined_only_always_true_witness :
    (extractInstructions sampleTemplate samplePhase []).methodology_categorization.map
      (fun m => m.tagging_rules.predefined_only) = some (JVal.bool true) :=
  predefined_only_always_true sampleTemplate samplePhase [] (by decide)
    (Or.inr ⟨false, rfl⟩)

end AgentSystem
